import Mathlib

/-!
Verification development for the Pediatric Anesthesia Calculator
(`src/App.tsx`).  The calculation engine is shallowly embedded over `ℚ`:
JavaScript numbers are modelled as exact rationals (every numeric literal of
the source is an exact decimal), `undefined` is `Option.none`, and JavaScript
truthiness tests on numbers (`!kg`, `kg ? _ : _`) are modelled as explicit
`= 0` tests on the payload of the `Option`.  String formatting of dose ranges
is abstracted into the inductive `DoseLabel`: `DoseLabel.single v u` stands
for the rendered string `"v u"` and `DoseLabel.range lo hi u` for the rendered
string `"lo–hi u"` (with an en-dash), keeping the numeric payloads exact.
-/

namespace PedsCalc

/-! ### Small utils (`round`, `roundTo` from `App.tsx`) -/

/-- JavaScript `Math.round`: rounds half toward positive infinity. -/
def jsRound (q : ℚ) : ℤ := ⌊q + 1 / 2⌋

/-- `round(n, d = 2)` from the source: `Math.round(n * 10 ** d) / 10 ** d`. -/
def round (n : ℚ) (d : ℕ) : ℚ := (jsRound (n * 10 ^ d) : ℚ) / 10 ^ d

/-- `roundTo(n, step = 0.1)` from the source: `Math.round(n / step) * step`. -/
def roundTo (n : ℚ) (step : ℚ) : ℚ := (jsRound (n / step) : ℚ) * step

/-- `KG_PER_LB = 1 / 2.2046226218`. -/
def KG_PER_LB : ℚ := 1 / 2.2046226218

/-! ### Model of the JavaScript `parseFloat` builtin

`parseFloat` is a host-language primitive, not repository code.  It is
modelled here for plain decimal numerals: an optional sign followed by
integer digits and an optional fractional part, evaluating the longest valid
prefix and returning `none` (JavaScript `NaN`) when no digit is found.
(Whitespace skipping, exponents and `Infinity` literals are outside the
grammar the calculator's numeric inputs produce.) -/

/-- Numeric value of a digit string, most significant first. -/
def natOfDigits (l : List Char) : ℕ :=
  l.foldl (fun acc c => acc * 10 + (c.toNat - 48)) 0

/-- Split a character list into its leading digit run and the rest. -/
def takeDigits : List Char → List Char × List Char
  | [] => ([], [])
  | c :: cs =>
    if c.isDigit then
      let p := takeDigits cs
      (c :: p.1, p.2)
    else ([], c :: cs)

/-- Core of the `parseFloat` model, on a character list. -/
def parseFloatChars (l : List Char) : Option ℚ :=
  let sl : ℚ × List Char :=
    match l with
    | '-' :: cs => (-1, cs)
    | '+' :: cs => (1, cs)
    | cs => (1, cs)
  let ip := takeDigits sl.2
  let fp : List Char :=
    match ip.2 with
    | '.' :: cs => (takeDigits cs).1
    | _ => []
  if ip.1 = [] ∧ fp = [] then none
  else some (sl.1 * ((natOfDigits ip.1 : ℚ) + (natOfDigits fp : ℚ) / 10 ^ fp.length))

/-- Model of JavaScript `parseFloat`; `none` models `NaN`. -/
def parseFloat (s : String) : Option ℚ := parseFloatChars s.data

/-! ### Input normalization (`parseWeight`, `parseHeightCm`, `parseAgeYears`) -/

inductive WUnit
  | kg
  | lb
deriving DecidableEq

/-- `parseWeight(v, unit)` from the source. -/
def parseWeight (v : String) (unit : WUnit) : Option ℚ :=
  match parseFloat v with
  | none => none
  | some num =>
    some (match unit with
      | WUnit.kg => num
      | WUnit.lb => num * KG_PER_LB)

inductive HUnit
  | cm
  | ftin
deriving DecidableEq

structure HeightArgs where
  cmValue : String
  ftValue : String
  inValue : String
  unit : HUnit
deriving DecidableEq

/-- `parseHeightCm({cmValue, ftValue, inValue, unit})` from the source. -/
def parseHeightCm (args : HeightArgs) : Option ℚ :=
  match args.unit with
  | HUnit.cm => parseFloat args.cmValue
  | HUnit.ftin =>
    let ft := parseFloat args.ftValue
    let inch := parseFloat args.inValue
    match ft, inch with
    | none, none => none
    | _, _ =>
      let totalIn := (match ft with | none => 0 | some f => f * 12) +
                     (match inch with | none => 0 | some i => i)
      some (totalIn * 2.54)

/-- `parseAgeYears(yrs, mos)` from the source.  `yrs || "0"` falls back to
`"0"` exactly when the string is empty. -/
def parseAgeYears (yrs mos : String) : Option ℚ :=
  let y := parseFloat (if yrs = "" then "0" else yrs)
  let m := parseFloat (if mos = "" then "0" else mos)
  let hasY := ¬y = none ∧ yrs ≠ ""
  let hasM := ¬m = none ∧ mos ≠ ""
  if ¬hasY ∧ ¬hasM then none
  else some ((if hasY then y.getD 0 else 0) + (if hasM then m.getD 0 / 12 else 0))

/-! ### Dosing engine -/

/-- Rendered dose label: `single v u` abstracts the string `"v u"`,
`range lo hi u` abstracts `"lo–hi u"` (en-dash). -/
inductive DoseLabel
  | single (v : ℚ) (units : String)
  | range (lo hi : ℚ) (units : String)
deriving DecidableEq

/-- Lower rendered bound of a dose label. -/
def DoseLabel.lowVal : DoseLabel → ℚ
  | DoseLabel.single v _ => v
  | DoseLabel.range lo _ _ => lo

/-- Higher rendered bound of a dose label. -/
def DoseLabel.highVal : DoseLabel → ℚ
  | DoseLabel.single v _ => v
  | DoseLabel.range _ hi _ => hi

/-- Whether a dose label is rendered as a single value. -/
def DoseLabel.isSingle : DoseLabel → Bool
  | DoseLabel.single _ _ => true
  | DoseLabel.range _ _ _ => false

/-- The options record of `calcDoseRange`; `cap = none` models the source's
`Infinity` default (`Math.min(x, Infinity) = x`). -/
structure DoseOpts where
  units : Option String
  roundStep : Option ℚ
  cap : Option ℚ
deriving DecidableEq

/-- `Math.min(x, cap)` with `cap = none` modelling `Infinity`. -/
def capMin (c : Option ℚ) (x : ℚ) : ℚ :=
  match c with
  | none => x
  | some cv => min x cv

/-- `calcDoseRange(kg, minPerKg, maxPerKg, opts)` from the source.  Note the
single-value test `low === high` compares the bounds BEFORE rounding. -/
def calcDoseRange (kg minPerKg maxPerKg : ℚ) (opts : Option DoseOpts) : DoseLabel :=
  let units := (opts.bind DoseOpts.units).getD "mg"
  let step := (opts.bind DoseOpts.roundStep).getD 0.1
  let cap := opts.bind DoseOpts.cap
  let low := capMin cap (minPerKg * kg)
  let high := capMin cap (maxPerKg * kg)
  if low = high then DoseLabel.single (roundTo low step) units
  else DoseLabel.range (roundTo low step) (roundTo high step) units

/-- One entry of the static `MEDS` table. -/
structure MedEntry where
  name : String
  perKg : ℚ × ℚ
  units : String
  note : String
deriving DecidableEq

/-- The static `MEDS` reference table from the source. -/
def MEDS : List MedEntry := [
  ⟨"Propofol (induction)", (2, 3), "mg", "Titrate to effect"⟩,
  ⟨"Ketamine (IV)", (1, 2), "mg", "Analgesic/sedative"⟩,
  ⟨"Fentanyl", (1, 2), "mcg", "Slow IV"⟩,
  ⟨"Morphine", (0.05, 0.1), "mg", "Slow IV"⟩,
  ⟨"Midazolam (IV)", (0.05, 0.1), "mg", "Titrate"⟩,
  ⟨"Rocuronium", (0.6, 1.2), "mg", "Intubating dose"⟩,
  ⟨"Succinylcholine", (1, 2), "mg", "Avoid if contraindicated"⟩,
  ⟨"Atropine", (0.02, 0.02), "mg", "Min 0.1 mg; cap 1 mg"⟩,
  ⟨"Epinephrine 0.1 mg/mL (code)", (0.01, 0.01), "mg", "0.1 mL/kg of 0.1 mg/mL"⟩,
  ⟨"Dexamethasone", (0.1, 0.5), "mg", "PONV/airway edema"⟩,
  ⟨"Ondansetron", (0.1, 0.15), "mg", "Max 4 mg"⟩,
  ⟨"Acetaminophen (IV)", (10, 15), "mg", "q6h; max 75 mg/kg/day"⟩,
  ⟨"Ibuprofen (PO)", (10, 10), "mg", "q6-8h; max 40 mg/kg/day"⟩,
  ⟨"Lidocaine (plain) - max", (3, 5), "mg", "Max w/o epi"⟩,
  ⟨"Lidocaine w/ epi - max", (7, 7), "mg", "Max with epi"⟩,
  ⟨"Bupivacaine - max", (2, 3), "mg", "Regional/local"⟩]

/-- JavaScript `name.startsWith(p)`, modelled on the character lists. -/
def strStartsWith (s p : String) : Bool := p.data.isPrefixOf s.data

/-- The cap assignment of `medRows`: 4 for a name starting "Ondansetron",
1 for a name starting "Atropine", otherwise the `Infinity` default (`none`). -/
def entryCap (m : MedEntry) : Option ℚ :=
  if strStartsWith m.name "Ondansetron" then some 4
  else if strStartsWith m.name "Atropine" then some 1
  else none

/-- One row of the rendered medication table. -/
structure MedRow where
  name : String
  perkg : DoseLabel
  calcLabel : DoseLabel
  note : String
deriving DecidableEq

/-- The body of the `MEDS.map` in `medRows`, for a truthy weight `k`. -/
def medRow (k : ℚ) (m : MedEntry) : MedRow :=
  let minPk := m.perKg.1
  let maxPk := m.perKg.2
  let calcLabel : DoseLabel :=
    if m.units = "mcg" then
      let low := minPk * k
      let high := maxPk * k
      if low = high then DoseLabel.single (roundTo low 1) "mcg"
      else DoseLabel.range (roundTo low 1) (roundTo high 1) "mcg"
    else
      calcDoseRange k minPk maxPk (some ⟨some "mg", some 0.05, entryCap m⟩)
  let perkg : DoseLabel :=
    if minPk = maxPk then DoseLabel.single minPk (m.units ++ "/kg")
    else DoseLabel.range minPk maxPk (m.units ++ "/kg")
  ⟨m.name, perkg, calcLabel, m.note⟩

/-- `medRows` from the source: `if (!kg) return []`, else one row per entry. -/
def medRows (kg : Option ℚ) : List MedRow :=
  match kg with
  | none => []
  | some k => if k = 0 then [] else MEDS.map (medRow k)

/-! ### Airway helpers -/

/-- `suggestBlade(ageYears)` from the source. -/
def suggestBlade (ageYears : Option ℚ) : String :=
  match ageYears with
  | none => "Miller 0–1 (infant) or Mac 2+ as age increases"
  | some a =>
    if a < 0.25 then "Miller 0 (preterm/term)"
    else if a < 1 then "Miller 0–1"
    else if a < 2 then "Miller 1 (or Mac 1–2)"
    else if a < 5 then "Mac 2 (or Miller 2 per preference)"
    else if a < 10 then "Mac 2–3"
    else "Mac 3 (or video laryngoscope as per device)"

/-- JavaScript `x ? f(x) : undefined` on an optional number: truthy means
present and nonzero. -/
def truthyThen (x : Option ℚ) (f : ℚ → ℚ) : Option ℚ :=
  match x with
  | none => none
  | some v => if v = 0 then none else some (f v)

/-- The weight-based branch of `ettForAgeWeight`, as `(cuffed, uncuffed)`. -/
def ettWeightSizes : Option ℚ → Option ℚ × Option ℚ
  | none => (none, none)
  | some w =>
    if w < 1.5 then (some 2.5, some 2.5)
    else if w < 3 then (some 3, some 3)
    else if w < 4 then (some 3.5, some 3.5)
    else (some 3.5, some 3.5)

structure Airway where
  cuffed : Option ℚ
  uncuffed : Option ℚ
  depthBySize : Option ℚ
  depthByAge : Option ℚ
  blade : String
deriving DecidableEq

/-- `ettForAgeWeight(ageYears, kg)` from the source. -/
def ettForAgeWeight (ageYears kg : Option ℚ) : Airway :=
  let cuun : Option ℚ × Option ℚ :=
    match ageYears with
    | some a =>
      if 1 ≤ a then (some (a / 4 + 3.5), some (a / 4 + 4))
      else ettWeightSizes kg
    | none => ettWeightSizes kg
  let cuffed := cuun.1
  let uncuffed := cuun.2
  let size : Option ℚ := match cuffed with
    | some c => some c
    | none => uncuffed
  let depthBySize := truthyThen size (fun s => 3 * s)
  let depthByAge : Option ℚ :=
    match ageYears with
    | some a => some (12 + a / 2)
    | none => none
  ⟨truthyThen size (fun s => roundTo s 0.5),
   truthyThen uncuffed (fun u => roundTo u 0.5),
   truthyThen depthBySize (fun d => round d 1),
   truthyThen depthByAge (fun d => round d 1),
   suggestBlade ageYears⟩

/-! ### Fluids -/

/-- `mIV_421(kg)` from the source: the 4-2-1 maintenance rate in mL/hr. -/
def mIV_421 (kg : ℚ) : ℚ :=
  if kg ≤ 0 then 0
  else if kg ≤ 10 then 4 * kg
  else if kg ≤ 20 then 40 + 2 * (kg - 10)
  else 60 + (kg - 20)

/-- `bolus20 = (kg) => (kg ? 20 * kg : undefined)` from the source. -/
def bolus20 (kg : Option ℚ) : Option ℚ := truthyThen kg (fun k => 20 * k)

/-- The `miv` pipeline value from the source: `kg ? mIV_421(kg) : undefined`. -/
def miv (kg : Option ℚ) : Option ℚ := truthyThen kg mIV_421

/-! ### PALS quick calcs -/

structure Shocks where
  first : ℚ
  second : ℚ
  subsequentLow : ℚ
  subsequentHigh : ℚ
deriving DecidableEq

/-- `palsShockEnergies(kg)` from the source: `if (!kg) return undefined`. -/
def palsShockEnergies (kg : Option ℚ) : Option Shocks :=
  match kg with
  | none => none
  | some k => if k = 0 then none else some ⟨2 * k, 4 * k, 4 * k, 10 * k⟩

structure EpiDose where
  mg : ℚ
  mL : ℚ
deriving DecidableEq

/-- `palsEpiArrest(kg)` from the source. -/
def palsEpiArrest (kg : Option ℚ) : Option EpiDose :=
  match kg with
  | none => none
  | some k => if k = 0 then none else some ⟨round (0.01 * k) 3, round (0.1 * k) 2⟩

/-! ### Helper lemmas -/

/-- If `q ≤ n` for an integer `n`, the JavaScript rounding of `q` is `≤ n`. -/
lemma jsRound_le_int (q : ℚ) (n : ℤ) (h : q ≤ (n : ℚ)) : jsRound q ≤ n := by
  unfold jsRound
  have h1 : q + 1 / 2 < ((n + 1 : ℤ) : ℚ) := by push_cast; linarith
  have h2 := Int.floor_lt.mpr h1
  omega

/-- `roundTo` does not pull a value that is at most an exact multiple of the
step above that multiple. -/
lemma roundTo_le_of_le (x c s : ℚ) (n : ℤ) (hs : 0 < s) (hc : (n : ℚ) * s = c)
    (h : x ≤ c) : roundTo x s ≤ c := by
  unfold roundTo
  have hq : x / s ≤ (n : ℚ) := by
    rw [div_le_iff₀ hs, hc]
    exact h
  have hr : jsRound (x / s) ≤ n := jsRound_le_int _ _ hq
  calc (jsRound (x / s) : ℚ) * s ≤ (n : ℚ) * s := by
        exact mul_le_mul_of_nonneg_right (by exact_mod_cast hr) hs.le
    _ = c := hc

/-- The lower rendered bound of `calcDoseRange` is always the rounded capped
low bound, in both the single-value and the range branch. -/
lemma calcDoseRange_lowVal (kg lo hi : ℚ) (u : String) (st : ℚ) (c : Option ℚ) :
    (calcDoseRange kg lo hi (some ⟨some u, some st, c⟩)).lowVal =
      roundTo (capMin c (lo * kg)) st := by
  unfold calcDoseRange
  dsimp only
  split_ifs <;> rfl

/-- The higher rendered bound of `calcDoseRange` is always the rounded capped
high bound, in both the single-value and the range branch. -/
lemma calcDoseRange_highVal (kg lo hi : ℚ) (u : String) (st : ℚ) (c : Option ℚ) :
    (calcDoseRange kg lo hi (some ⟨some u, some st, c⟩)).highVal =
      roundTo (capMin c (hi * kg)) st := by
  unfold calcDoseRange
  dsimp only
  split_ifs with h
  · simp only [DoseLabel.highVal, h]
    rfl
  · rfl

/-- Evaluation of the `parseFloat` model at "" (NaN). -/
lemma parseFloat_eval_empty : parseFloat "" = none := by
  unfold parseFloat parseFloatChars
  rw [show "".data = [] from rfl]
  simp +decide [takeDigits]

/-- Evaluation of the `parseFloat` model at "0". -/
lemma parseFloat_eval_0 : parseFloat "0" = some 0 := by
  unfold parseFloat parseFloatChars
  rw [show "0".data = ['0'] from rfl]
  simp +decide [takeDigits, natOfDigits]

/-- Evaluation of the `parseFloat` model at "-1". -/
lemma parseFloat_eval_neg1 : parseFloat "-1" = some (-1) := by
  unfold parseFloat parseFloatChars
  rw [show "-1".data = ['-', '1'] from rfl]
  simp +decide [takeDigits, natOfDigits]

/-- Evaluation of the `parseFloat` model at "-2". -/
lemma parseFloat_eval_neg2 : parseFloat "-2" = some (-2) := by
  unfold parseFloat parseFloatChars
  rw [show "-2".data = ['-', '2'] from rfl]
  simp +decide [takeDigits, natOfDigits]

/-- Evaluation of the `parseFloat` model at "3". -/
lemma parseFloat_eval_3 : parseFloat "3" = some 3 := by
  unfold parseFloat parseFloatChars
  rw [show "3".data = ['3'] from rfl]
  simp +decide [takeDigits, natOfDigits]

/-- Evaluation of the `parseFloat` model at "5". -/
lemma parseFloat_eval_5 : parseFloat "5" = some 5 := by
  unfold parseFloat parseFloatChars
  rw [show "5".data = ['5'] from rfl]
  simp +decide [takeDigits, natOfDigits]

/-- Evaluation of the `parseFloat` model at "8". -/
lemma parseFloat_eval_8 : parseFloat "8" = some 8 := by
  unfold parseFloat parseFloatChars
  rw [show "8".data = ['8'] from rfl]
  simp +decide [takeDigits, natOfDigits]

/-! ### Claim theorems -/

/-- C2: the maintenance fluid rate `mIV_421` is the piecewise function
0 for kg ≤ 0, 4·kg on (0,10], 40 + 2·(kg−10) on (10,20], 60 + (kg−20) above
20; it is non-decreasing for positive weights, and the adjacent branches
agree exactly at kg = 10 (both 40) and kg = 20 (both 60). -/
theorem mIV_421_piecewise_monotone :
    (∀ kg : ℚ, kg ≤ 0 → mIV_421 kg = 0) ∧
    (∀ kg : ℚ, 0 < kg → kg ≤ 10 → mIV_421 kg = 4 * kg) ∧
    (∀ kg : ℚ, 10 < kg → kg ≤ 20 → mIV_421 kg = 40 + 2 * (kg - 10)) ∧
    (∀ kg : ℚ, 20 < kg → mIV_421 kg = 60 + (kg - 20)) ∧
    (∀ a b : ℚ, 0 < a → a ≤ b → mIV_421 a ≤ mIV_421 b) ∧
    (mIV_421 10 = 4 * 10 ∧ mIV_421 10 = 40 + 2 * (10 - 10) ∧ mIV_421 10 = 40) ∧
    (mIV_421 20 = 40 + 2 * (20 - 10) ∧ mIV_421 20 = 60 + (20 - 20) ∧ mIV_421 20 = 60) := by
  refine ⟨?_, ?_, ?_, ?_, ?_, ?_, ?_⟩
  · intro kg h
    simp [mIV_421, h]
  · intro kg h1 h2
    unfold mIV_421
    split_ifs <;> linarith
  · intro kg h1 h2
    unfold mIV_421
    split_ifs <;> linarith
  · intro kg h1
    unfold mIV_421
    split_ifs <;> linarith
  · intro a b ha hab
    unfold mIV_421
    split_ifs <;> linarith
  · refine ⟨?_, ?_, ?_⟩ <;> norm_num [mIV_421]
  · refine ⟨?_, ?_, ?_⟩ <;> norm_num [mIV_421]

/-- Witness for C2 at concrete weights 5 and 15. -/
theorem mIV_421_piecewise_monotone_witness :
    (0 : ℚ) < 5 ∧ (5 : ℚ) ≤ 15 ∧ mIV_421 5 ≤ mIV_421 15 :=
  ⟨by norm_num, by norm_num,
    mIV_421_piecewise_monotone.2.2.2.2.1 5 15 (by norm_num) (by norm_num)⟩

/-- C7: the laryngoscope blade suggestion is a function of age alone, with
half-open brackets at 0.25, 1, 2, 5 and 10 years; age exactly 1 falls in the
"<2" bracket; unknown age gives the generic text; the airway pipeline's blade
field is exactly `suggestBlade` of the age, never consulting weight. -/
theorem suggestBlade_brackets :
    suggestBlade none = "Miller 0–1 (infant) or Mac 2+ as age increases" ∧
    (∀ a : ℚ, a < 0.25 → suggestBlade (some a) = "Miller 0 (preterm/term)") ∧
    (∀ a : ℚ, 0.25 ≤ a → a < 1 → suggestBlade (some a) = "Miller 0–1") ∧
    (∀ a : ℚ, 1 ≤ a → a < 2 → suggestBlade (some a) = "Miller 1 (or Mac 1–2)") ∧
    (∀ a : ℚ, 2 ≤ a → a < 5 → suggestBlade (some a) = "Mac 2 (or Miller 2 per preference)") ∧
    (∀ a : ℚ, 5 ≤ a → a < 10 → suggestBlade (some a) = "Mac 2–3") ∧
    (∀ a : ℚ, 10 ≤ a → suggestBlade (some a) = "Mac 3 (or video laryngoscope as per device)") ∧
    suggestBlade (some 1) = "Miller 1 (or Mac 1–2)" ∧
    (∀ ao kg : Option ℚ, (ettForAgeWeight ao kg).blade = suggestBlade ao) := by
  refine ⟨rfl, ?_, ?_, ?_, ?_, ?_, ?_, by norm_num [suggestBlade], fun ao kg => rfl⟩ <;>
    · intro a h1
      try intro h2
      unfold suggestBlade
      dsimp only
      split_ifs <;> first | rfl | linarith

/-- Witness for C7 at age 1 (the boundary the claim singles out). -/
theorem suggestBlade_brackets_witness :
    (1 : ℚ) ≤ 1 ∧ (1 : ℚ) < 2 ∧ suggestBlade (some 1) = "Miller 1 (or Mac 1–2)" :=
  ⟨by norm_num, by norm_num,
    suggestBlade_brackets.2.2.2.1 1 (by norm_num) (by norm_num)⟩

/-- C10: the input string "0" in kg mode parses to the defined value 0, yet
every weight consumer treats it exactly like an unknown weight, because each
tests JavaScript truthiness of `kg`: the medication table is empty and bolus,
pipeline maintenance, shock energies and epinephrine are all undefined. -/
theorem weight_zero_treated_as_unknown :
    parseWeight "0" WUnit.kg = some 0 ∧
    medRows (some 0) = [] ∧ medRows none = [] ∧
    bolus20 (some 0) = none ∧ bolus20 none = none ∧
    miv (some 0) = none ∧ miv none = none ∧
    palsShockEnergies (some 0) = none ∧ palsShockEnergies none = none ∧
    palsEpiArrest (some 0) = none ∧ palsEpiArrest none = none := by
  refine ⟨by simp [parseWeight, parseFloat_eval_0], ?_, rfl, ?_, rfl, ?_, rfl, ?_, rfl, ?_, rfl⟩ <;>
    simp [medRows, bolus20, miv, truthyThen, palsShockEnergies, palsEpiArrest]

/-- C6 counterexample: weight 0 is a known (parsed) weight, yet the arrest
quick-calc returns `none` rather than the 2·kg/4·kg/…​ formulas. -/
theorem pals_zero_weight_counterexample :
    parseWeight "0" WUnit.kg = some 0 ∧
    palsShockEnergies (some 0) = none ∧
    palsShockEnergies (some 0) ≠ some ⟨2 * 0, 4 * 0, 4 * 0, 10 * 0⟩ ∧
    palsEpiArrest (some 0) = none ∧
    palsEpiArrest (some 0) ≠ some ⟨round (0.01 * 0) 3, round (0.1 * 0) 2⟩ := by
  refine ⟨by simp [parseWeight, parseFloat_eval_0], ?_, ?_, ?_, ?_⟩ <;>
    simp [palsShockEnergies, palsEpiArrest]

/-- C6 as amended: for every known NONZERO weight the arrest quick-calc
returns first = 2·kg J, second = 4·kg J, subsequent ∈ [4·kg, 10·kg] J, and
epinephrine mass 0.01·kg mg rounded to 3 decimals with volume 0.1·kg mL
rounded to 2 decimals; the outputs are undefined when the weight is unknown
— and also when it is exactly 0, since the guard is JavaScript truthiness. -/
theorem pals_formulas_nonzero (kg : ℚ) (hk : kg ≠ 0) :
    palsShockEnergies (some kg) = some ⟨2 * kg, 4 * kg, 4 * kg, 10 * kg⟩ ∧
    palsEpiArrest (some kg) = some ⟨round (0.01 * kg) 3, round (0.1 * kg) 2⟩ ∧
    palsShockEnergies none = none ∧ palsEpiArrest none = none ∧
    palsShockEnergies (some 0) = none ∧ palsEpiArrest (some 0) = none := by
  refine ⟨?_, ?_, rfl, rfl, ?_, ?_⟩ <;>
    simp [palsShockEnergies, palsEpiArrest, hk]

/-- Witness for C6's amended theorem at weight 10 kg. -/
theorem pals_formulas_nonzero_witness :
    (10 : ℚ) ≠ 0 ∧
    (palsShockEnergies (some 10) = some ⟨2 * 10, 4 * 10, 4 * 10, 10 * 10⟩ ∧
     palsEpiArrest (some 10) = some ⟨round (0.01 * 10) 3, round (0.1 * 10) 2⟩ ∧
     palsShockEnergies none = none ∧ palsEpiArrest none = none ∧
     palsShockEnergies (some 0) = none ∧ palsEpiArrest (some 0) = none) :=
  ⟨by norm_num, pals_formulas_nonzero 10 (by norm_num)⟩

/-- C5 counterexample: Input Normalization does produce present but
nonpositive canonical values — weight "0" parses to 0 kg, height "0" to 0 cm,
and age "-1" years to −1 — so the data-model bounds (>0, >0, ≥0) are not
established by parsing. -/
theorem parse_bounds_counterexample :
    parseWeight "0" WUnit.kg = some 0 ∧ ¬(0 : ℚ) > 0 ∧
    parseHeightCm ⟨"0", "", "", HUnit.cm⟩ = some 0 ∧
    parseAgeYears "-1" "" = some (-1) ∧ (-1 : ℚ) < 0 := by
  refine ⟨by simp [parseWeight, parseFloat_eval_0], by norm_num,
    by simp [parseHeightCm, parseFloat_eval_0],
    by simp +decide [parseAgeYears, parseFloat_eval_neg1, parseFloat_eval_0],
    by norm_num⟩

/-- C5 as amended: the parsers return the parsed numeric value (converted
for units) with no bound enforcement, so present-but-nonpositive weights and
heights and present-but-negative ages are possible parse results. -/
theorem parse_values_unbounded :
    (∀ v : String, parseWeight v WUnit.kg = parseFloat v) ∧
    (∀ v : String, parseWeight v WUnit.lb = (parseFloat v).map (fun x => x * KG_PER_LB)) ∧
    (∀ c f i : String, parseHeightCm ⟨c, f, i, HUnit.cm⟩ = parseFloat c) ∧
    parseWeight "0" WUnit.kg = some 0 ∧
    parseHeightCm ⟨"-2", "", "", HUnit.cm⟩ = some (-2) ∧
    parseAgeYears "-1" "" = some (-1) := by
  refine ⟨?_, ?_, fun c f i => rfl, by simp [parseWeight, parseFloat_eval_0],
    by simp [parseHeightCm, parseFloat_eval_neg2],
    by simp +decide [parseAgeYears, parseFloat_eval_neg1, parseFloat_eval_0]⟩ <;>
    · intro v
      unfold parseWeight
      cases h : parseFloat v <;> simp [h]

/-- C8: age parsing returns `none` iff both fields are absent (empty or
unparseable); otherwise the result is the sum of the supplied years and the
supplied months divided by 12, an empty string counting as "not supplied";
supplying only months gives months/12 (e.g. "8" months is 2/3 years). -/
theorem parseAgeYears_absent_iff_and_sum :
    (∀ ys ms : String, parseAgeYears ys ms = none ↔
      ((ys = "" ∨ parseFloat ys = none) ∧ (ms = "" ∨ parseFloat ms = none))) ∧
    (∀ (ys ms : String) (qy qm : ℚ), ys ≠ "" → parseFloat ys = some qy →
      ms ≠ "" → parseFloat ms = some qm →
      parseAgeYears ys ms = some (qy + qm / 12)) ∧
    (∀ (ys ms : String) (qy : ℚ), ys ≠ "" → parseFloat ys = some qy →
      (ms = "" ∨ parseFloat ms = none) →
      parseAgeYears ys ms = some qy) ∧
    (∀ (ys ms : String) (qm : ℚ), (ys = "" ∨ parseFloat ys = none) →
      ms ≠ "" → parseFloat ms = some qm →
      parseAgeYears ys ms = some (qm / 12)) ∧
    parseAgeYears "" "8" = some (2 / 3) := by
  refine ⟨?_, ?_, ?_, ?_, ?_⟩
  · intro ys ms
    by_cases hy : ys = "" <;> by_cases hm : ms = "" <;>
      cases hpy : parseFloat ys <;> cases hpm : parseFloat ms <;>
        simp [parseAgeYears, hy, hm, hpy, hpm, parseFloat_eval_0]
  · intro ys ms qy qm hy hpy hm hpm
    simp [parseAgeYears, hy, hm, hpy, hpm]
  · intro ys ms qy hy hpy hm
    rcases hm with hm | hm
    · simp [parseAgeYears, hy, hm, hpy, parseFloat_eval_0]
    · by_cases hm2 : ms = "" <;> simp [parseAgeYears, hy, hm, hm2, hpy, parseFloat_eval_0]
  · intro ys ms qm hy hm hpm
    rcases hy with hy | hy
    · simp [parseAgeYears, hy, hm, hpm, parseFloat_eval_0]
    · by_cases hy2 : ys = "" <;> simp [parseAgeYears, hy, hy2, hm, hpm, parseFloat_eval_0]
  · have h8 : parseFloat "8" = some 8 := parseFloat_eval_8
    simp +decide [parseAgeYears, h8, parseFloat_eval_0]
    norm_num

/-- Witness for C8: only months supplied ("8"), and a fully supplied pair. -/
theorem parseAgeYears_absent_iff_and_sum_witness :
    ("2" : String) ≠ "" ∧ parseFloat "2" = some 2 ∧
    ("3" : String) ≠ "" ∧ parseFloat "3" = some 3 ∧
    parseAgeYears "2" "3" = some (2 + 3 / 12) :=
  ⟨by decide, by
      have := parseFloat_eval_3
      unfold parseFloat at *
      rw [show "2".data = ['2'] from rfl]
      simp +decide [parseFloatChars, takeDigits, natOfDigits],
    by decide, parseFloat_eval_3,
    parseAgeYears_absent_iff_and_sum.2.1 "2" "3" 2 3 (by decide)
      (by
        unfold parseFloat
        rw [show "2".data = ['2'] from rfl]
        simp +decide [parseFloatChars, takeDigits, natOfDigits])
      (by decide) parseFloat_eval_3⟩

/-- C9: height parsing returns the parsed centimeters in cm mode (undefined
on a non-numeric string); in ft/in mode it parses the two fields
independently, treats an unparseable field as 0, returns `none` only when
both are unparseable, and otherwise yields (ft·12 + in)·2.54 cm. -/
theorem parseHeightCm_modes :
    (∀ c f i : String, parseHeightCm ⟨c, f, i, HUnit.cm⟩ = parseFloat c) ∧
    (∀ c f i : String, parseFloat f = none → parseFloat i = none →
      parseHeightCm ⟨c, f, i, HUnit.ftin⟩ = none) ∧
    (∀ (c f i : String) (ft inch : ℚ), parseFloat f = some ft →
      parseFloat i = some inch →
      parseHeightCm ⟨c, f, i, HUnit.ftin⟩ = some ((ft * 12 + inch) * 2.54)) ∧
    (∀ (c f i : String) (ft : ℚ), parseFloat f = some ft → parseFloat i = none →
      parseHeightCm ⟨c, f, i, HUnit.ftin⟩ = some ((ft * 12 + 0) * 2.54)) ∧
    (∀ (c f i : String) (inch : ℚ), parseFloat f = none → parseFloat i = some inch →
      parseHeightCm ⟨c, f, i, HUnit.ftin⟩ = some ((0 + inch) * 2.54)) := by
  refine ⟨fun c f i => rfl, ?_, ?_, ?_, ?_⟩
  · intro c f i hf hi
    unfold parseHeightCm
    dsimp only
    rw [hf, hi]
  · intro c f i ft inch hf hi
    unfold parseHeightCm
    dsimp only
    rw [hf, hi]
  · intro c f i ft hf hi
    unfold parseHeightCm
    dsimp only
    rw [hf, hi]
  · intro c f i inch hf hi
    unfold parseHeightCm
    dsimp only
    rw [hf, hi]

/-- Witness for C9 in ft/in mode with feet "5" and inches "3". -/
theorem parseHeightCm_modes_witness :
    parseFloat "5" = some 5 ∧ parseFloat "3" = some 3 ∧
    parseHeightCm ⟨"", "5", "3", HUnit.ftin⟩ = some ((5 * 12 + 3) * 2.54) :=
  ⟨parseFloat_eval_5, parseFloat_eval_3,
    parseHeightCm_modes.2.2.1 "" "5" "3" 5 3 parseFloat_eval_5 parseFloat_eval_3⟩

/-- C3: the ETT decision tree.  With a known age ≥ 1 the age formulas apply
(uncuffed age/4 + 4, cuffed age/4 + 3.5, rounded to 0.5; depth by size
3 × cuffed, rounded to 0.1).  Otherwise a known weight selects a fixed size
(cuffed = uncuffed; <1.5 kg → 2.5, [1.5,3) → 3, ≥3 kg → 3.5).  Otherwise both
sizes and the size-based depth are undefined.  Depth by age, 12 + age/2
rounded to 0.1, is defined whenever a (non-negative) age is known, even when
no size is. -/
theorem ettForAgeWeight_decision_tree :
    (∀ (a : ℚ) (kg : Option ℚ), 1 ≤ a →
      (ettForAgeWeight (some a) kg).uncuffed = some (roundTo (a / 4 + 4) 0.5) ∧
      (ettForAgeWeight (some a) kg).cuffed = some (roundTo (a / 4 + 3.5) 0.5) ∧
      (ettForAgeWeight (some a) kg).depthBySize = some (round (3 * (a / 4 + 3.5)) 1) ∧
      (ettForAgeWeight (some a) kg).depthByAge = some (round (12 + a / 2) 1)) ∧
    (∀ (ao : Option ℚ) (w : ℚ), (∀ a, ao = some a → a < 1) →
      (ettForAgeWeight ao (some w)).cuffed =
        some (if w < 1.5 then 2.5 else if w < 3 then 3 else 3.5) ∧
      (ettForAgeWeight ao (some w)).uncuffed =
        some (if w < 1.5 then 2.5 else if w < 3 then 3 else 3.5) ∧
      (ettForAgeWeight ao (some w)).depthBySize =
        some (round (3 * (if w < 1.5 then 2.5 else if w < 3 then 3 else 3.5)) 1)) ∧
    (∀ ao : Option ℚ, (∀ a, ao = some a → a < 1) →
      (ettForAgeWeight ao none).cuffed = none ∧
      (ettForAgeWeight ao none).uncuffed = none ∧
      (ettForAgeWeight ao none).depthBySize = none) ∧
    (∀ (a : ℚ) (kg : Option ℚ), 0 ≤ a →
      (ettForAgeWeight (some a) kg).depthByAge = some (round (12 + a / 2) 1)) := by
  refine ⟨?_, ?_, ?_, ?_⟩
  · intro a kg h
    have h1 : (a / 4 + 3.5 : ℚ) ≠ 0 := by positivity
    have h2 : (a / 4 + 4 : ℚ) ≠ 0 := by positivity
    have h3 : (3 * (a / 4 + 3.5) : ℚ) ≠ 0 := by positivity
    have h4 : (12 + a / 2 : ℚ) ≠ 0 := by positivity
    unfold ettForAgeWeight
    dsimp only
    simp [truthyThen, h, h1, h2, h3, h4]
  · intro ao w h
    cases ao with
    | none =>
      by_cases hw1 : w < (3 / 2 : ℚ) <;> by_cases hw2 : w < (3 : ℚ) <;>
        by_cases hw3 : w < (4 : ℚ) <;>
          refine ⟨?_, ?_, ?_⟩ <;>
            norm_num [ettForAgeWeight, ettWeightSizes, truthyThen, hw1, hw2, hw3,
              roundTo, jsRound, Int.floor_eq_iff]
    | some a =>
      have ha : ¬(1 : ℚ) ≤ a := by
        have := h a rfl
        linarith
      by_cases hw1 : w < (3 / 2 : ℚ) <;> by_cases hw2 : w < (3 : ℚ) <;>
        by_cases hw3 : w < (4 : ℚ) <;>
          refine ⟨?_, ?_, ?_⟩ <;>
            norm_num [ettForAgeWeight, ettWeightSizes, truthyThen, ha, hw1, hw2, hw3,
              roundTo, jsRound, Int.floor_eq_iff]
  · intro ao h
    cases ao with
    | none => refine ⟨rfl, rfl, rfl⟩
    | some a =>
      have ha : ¬(1 : ℚ) ≤ a := by
        have := h a rfl
        linarith
      refine ⟨?_, ?_, ?_⟩ <;>
        · unfold ettForAgeWeight
          dsimp only
          rw [if_neg ha]
          rfl
  · intro a kg h
    have h4 : (12 + a / 2 : ℚ) ≠ 0 := by positivity
    unfold ettForAgeWeight
    dsimp only
    simp [truthyThen, h4]

/-- Witness for C3 at age 3 years, weight 20 kg (the spec's worked
scenario). -/
theorem ettForAgeWeight_decision_tree_witness :
    (1 : ℚ) ≤ 3 ∧
    ((ettForAgeWeight (some 3) (some 20)).uncuffed = some (roundTo (3 / 4 + 4) 0.5) ∧
     (ettForAgeWeight (some 3) (some 20)).cuffed = some (roundTo (3 / 4 + 3.5) 0.5) ∧
     (ettForAgeWeight (some 3) (some 20)).depthBySize =
       some (round (3 * (3 / 4 + 3.5)) 1) ∧
     (ettForAgeWeight (some 3) (some 20)).depthByAge =
       some (round (12 + 3 / 2) 1)) :=
  ⟨by norm_num, ettForAgeWeight_decision_tree.1 3 (some 20) (by norm_num)⟩

/-- C4 counterexample: `calcDoseRange` compares the bounds BEFORE rounding,
so two unequal raw bounds that round to the same value still render as a
range.  At kg = 0.2 with Morphine's 0.05–0.1 mg/kg (step 0.05 mg): both
bounds round to 0, yet the label is the degenerate range "0–0 mg", not a
single value. -/
theorem dose_label_rounded_equal_still_range :
    roundTo (0.05 * 0.2) 0.05 = roundTo (0.1 * 0.2) 0.05 ∧
    (0.05 : ℚ) * 0.2 ≠ 0.1 * 0.2 ∧
    calcDoseRange 0.2 0.05 0.1 (some ⟨some "mg", some 0.05, none⟩) =
      DoseLabel.range (roundTo (0.05 * 0.2) 0.05) (roundTo (0.1 * 0.2) 0.05) "mg" ∧
    (calcDoseRange 0.2 0.05 0.1 (some ⟨some "mg", some 0.05, none⟩)).isSingle = false := by
  have hne : capMin none ((0.05 : ℚ) * 0.2) ≠ capMin none ((0.1 : ℚ) * 0.2) := by
    norm_num [capMin]
  have hlbl : calcDoseRange 0.2 0.05 0.1 (some ⟨some "mg", some 0.05, none⟩) =
      DoseLabel.range (roundTo (0.05 * 0.2) 0.05) (roundTo (0.1 * 0.2) 0.05) "mg" := by
    unfold calcDoseRange
    dsimp only [Option.bind, Option.getD]
    rw [if_neg hne]
    rfl
  refine ⟨?_, by norm_num, hlbl, ?_⟩
  · norm_num [roundTo, jsRound]
  · rw [hlbl]
    rfl

/-- C4 as amended: for every drug entry and weight, the calculated dose
label is a single value exactly when the RAW bounds (after the per-kg
multiplication and the cap, but before rounding) are equal; bounds that
merely round to the same value still render as a range. -/
theorem dose_label_single_iff_raw_equal (kg : ℚ) (m : MedEntry) :
    (medRow kg m).calcLabel.isSingle = true ↔
      (if m.units = "mcg" then m.perKg.1 * kg = m.perKg.2 * kg
       else capMin (entryCap m) (m.perKg.1 * kg) = capMin (entryCap m) (m.perKg.2 * kg)) := by
  unfold medRow
  dsimp only
  by_cases hu : m.units = "mcg"
  · rw [if_pos hu, if_pos hu]
    by_cases he : m.perKg.1 * kg = m.perKg.2 * kg <;>
      simp [he, DoseLabel.isSingle]
  · rw [if_neg hu, if_neg hu]
    unfold calcDoseRange
    dsimp only [Option.bind, Option.getD]
    by_cases he : capMin (entryCap m) (m.perKg.1 * kg) =
        capMin (entryCap m) (m.perKg.2 * kg) <;>
      simp [he, DoseLabel.isSingle]

/-- For an "mg" entry, the rendered label of its row is exactly
`calcDoseRange` at the entry's per-kg bounds with step 0.05 and its cap. -/
lemma medRow_calcLabel_mg (k : ℚ) (m : MedEntry) (hu : m.units = "mg") :
    (medRow k m).calcLabel =
      calcDoseRange k m.perKg.1 m.perKg.2 (some ⟨some "mg", some 0.05, entryCap m⟩) := by
  unfold medRow
  dsimp only
  rw [hu, if_neg (by decide : ¬("mg" : String) = "mcg")]

/-- C1: for the two entries with an absolute cap (Ondansetron 4 mg,
Atropine 1 mg) and every truthy weight, the row's rendered bounds are
`roundTo (min (perKg·kg) cap) 0.05` — the cap applied independently to each
bound after the multiplication — and both rendered bounds are ≤ cap. -/
theorem capped_dose_bounds (kg : ℚ) (hk : kg ≠ 0) (m : MedEntry) (hm : m ∈ MEDS)
    (c : ℚ) (hc : entryCap m = some c) :
    medRow kg m ∈ medRows (some kg) ∧
    (medRow kg m).calcLabel.lowVal = roundTo (min (m.perKg.1 * kg) c) 0.05 ∧
    (medRow kg m).calcLabel.highVal = roundTo (min (m.perKg.2 * kg) c) 0.05 ∧
    (medRow kg m).calcLabel.lowVal ≤ c ∧
    (medRow kg m).calcLabel.highVal ≤ c := by
  have hmem : medRow kg m ∈ medRows (some kg) := by
    show medRow kg m ∈ (if kg = 0 then [] else MEDS.map (medRow kg))
    rw [if_neg hk]
    exact List.mem_map_of_mem _ hm
  fin_cases hm <;> simp +decide [entryCap] at hc
  · -- Atropine, cap 1
    subst hc
    have hcap : entryCap ⟨"Atropine", (0.02, 0.02), "mg", "Min 0.1 mg; cap 1 mg"⟩ =
        some 1 := by
      simp +decide [entryCap]
    refine ⟨hmem, ?_, ?_, ?_, ?_⟩ <;> rw [medRow_calcLabel_mg kg _ rfl, hcap]
    · rw [calcDoseRange_lowVal]
      simp [capMin]
    · rw [calcDoseRange_highVal]
      simp [capMin]
    · rw [calcDoseRange_lowVal]
      exact roundTo_le_of_le _ _ _ 20 (by norm_num) (by norm_num)
        (by simp [capMin])
    · rw [calcDoseRange_highVal]
      exact roundTo_le_of_le _ _ _ 20 (by norm_num) (by norm_num)
        (by simp [capMin])
  · -- Ondansetron, cap 4
    subst hc
    have hcap : entryCap ⟨"Ondansetron", (0.1, 0.15), "mg", "Max 4 mg"⟩ =
        some 4 := by
      simp +decide [entryCap]
    refine ⟨hmem, ?_, ?_, ?_, ?_⟩ <;> rw [medRow_calcLabel_mg kg _ rfl, hcap]
    · rw [calcDoseRange_lowVal]
      simp [capMin]
    · rw [calcDoseRange_highVal]
      simp [capMin]
    · rw [calcDoseRange_lowVal]
      exact roundTo_le_of_le _ _ _ 80 (by norm_num) (by norm_num)
        (by simp [capMin])
    · rw [calcDoseRange_highVal]
      exact roundTo_le_of_le _ _ _ 80 (by norm_num) (by norm_num)
        (by simp [capMin])

/-- Witness for C1: Atropine at 100 kg (the spec's example: raw high
2 mg, capped output 1 mg). -/
theorem capped_dose_bounds_witness :
    (100 : ℚ) ≠ 0 ∧
    (⟨"Atropine", (0.02, 0.02), "mg", "Min 0.1 mg; cap 1 mg"⟩ : MedEntry) ∈ MEDS ∧
    entryCap ⟨"Atropine", (0.02, 0.02), "mg", "Min 0.1 mg; cap 1 mg"⟩ = some 1 ∧
    (medRow 100 ⟨"Atropine", (0.02, 0.02), "mg", "Min 0.1 mg; cap 1 mg"⟩ ∈
        medRows (some 100) ∧
      (medRow 100 ⟨"Atropine", (0.02, 0.02), "mg", "Min 0.1 mg; cap 1 mg"⟩).calcLabel.lowVal =
        roundTo (min (0.02 * 100) 1) 0.05 ∧
      (medRow 100 ⟨"Atropine", (0.02, 0.02), "mg", "Min 0.1 mg; cap 1 mg"⟩).calcLabel.highVal =
        roundTo (min (0.02 * 100) 1) 0.05 ∧
      (medRow 100 ⟨"Atropine", (0.02, 0.02), "mg", "Min 0.1 mg; cap 1 mg"⟩).calcLabel.lowVal ≤ 1 ∧
      (medRow 100 ⟨"Atropine", (0.02, 0.02), "mg", "Min 0.1 mg; cap 1 mg"⟩).calcLabel.highVal ≤ 1) :=
  ⟨by norm_num, by simp [MEDS], by simp +decide [entryCap],
    capped_dose_bounds 100 (by norm_num) _ (by simp [MEDS]) 1
      (by simp +decide [entryCap])⟩

end PedsCalc
